import Mathlib

/-!
Shallow embedding of img2dataset's async_downloader module
(src/img2dataset/async_downloader.py) and proofs about it.

Python strings are modelled as lists of characters so that the
character-level operations of the source (split, strip, lower, zero
padding) can be embedded as structural recursions.
-/

namespace Img2Dataset

/-- The string model: a Python str is a list of characters. -/
abbrev PyStr := List Char

/-- Byte payloads (the contents read from an HTTP response body). -/
abbrev Bytes := List Nat

/-- Python str.lower applied character-wise (ASCII as in the data at hand). -/
def lowerChars (s : PyStr) : PyStr := s.map Char.toLower

/-- Python whitespace as removed by str.strip. -/
def isPySpace (c : Char) : Bool :=
  c = ' ' || c = '\t' || c = '\n' || c = '\x0d' || c = '\x0b' || c = '\x0c'

/-- Python str.strip: drop whitespace from both ends. -/
def trimChars (s : PyStr) : PyStr :=
  ((s.dropWhile isPySpace).reverse.dropWhile isPySpace).reverse

/-- Python s.split(sep, 1) for a one-character separator: split at the first
occurrence only; none when the separator does not occur. -/
def splitFirst (sep : Char) : PyStr → Option (PyStr × PyStr)
  | [] => none
  | c :: t =>
    if c = sep then some ([], t)
    else match splitFirst sep t with
      | none => none
      | some (a, b) => some (c :: a, b)

/-- Python s.split(sep) for a one-character separator: split at every
occurrence; the empty string yields one empty field. -/
def splitAll (sep : Char) : PyStr → List PyStr
  | [] => [[]]
  | c :: t =>
    if c = sep then [] :: splitAll sep t
    else match splitAll sep t with
      | h :: r => (c :: h) :: r
      | [] => [[c]]

/-- The user-agent token of one X-Robots-Tag value: the part before the first
colon, lower-cased (the source applies .lower() but no .strip() to it), or
absent when the value has no colon.  Embeds lines 23-25 of the source. -/
def uaTokenOf (v : PyStr) : Option PyStr :=
  match splitFirst ':' v with
  | none => none
  | some (tok, _) => some (lowerChars tok)

/-- The directive list of one X-Robots-Tag value: the part after the first
colon (the whole value when there is no colon), split on commas, each
directive stripped then lower-cased.  Embeds line 24 of the source. -/
def dirListOf (v : PyStr) : List PyStr :=
  let rest := match splitFirst ':' v with
    | none => v
    | some (_, r) => r
  (splitAll ',' rest).map (fun x => lowerChars (trimChars x))

/-- Whether one X-Robots-Tag value matches: the token is absent or equals the
configured token, and some directive is in the disallowed set.  Embeds the
condition of lines 26-28 of the source. -/
def valueMatches (v : PyStr) (user_agent_token : Option PyStr)
    (disallowed : List PyStr) : Bool :=
  ((uaTokenOf v).isNone || (uaTokenOf v) == user_agent_token)
    && (dirListOf v).any (fun d => disallowed.contains d)

/-- is_disallowed (source lines 19-33): scan all X-Robots-Tag header values,
true as soon as one matches.  headers is modelled as the list that
headers.getall("X-Robots-Tag", []) returns. -/
def is_disallowed (headerValues : List PyStr) (user_agent_token : Option PyStr)
    (disallowed : List PyStr) : Bool :=
  headerValues.any (fun v => valueMatches v user_agent_token disallowed)

/-! ### The Fetcher: download_image and its retry wrapper -/

/-- One behaviour of the HTTP session for one GET: either the request itself
raises (transport, timeout or protocol error), or it yields a response with
its X-Robots-Tag header values and a body read that either raises or
delivers the full body bytes. -/
inductive SessionBehavior where
  | raiseOnGet (err : PyStr)
  | respond (xRobotsValues : List PyStr) (body : Except PyStr Bytes)

/-- Truthiness of the disallowed_header_directives argument: Python treats
None and the empty set as false. -/
def disTruthy : Option (List PyStr) → Bool
  | none => false
  | some l => !l.isEmpty

/-- The fixed policy-rejection message of source line 56. -/
def robotsMsg : PyStr := "Use of image disallowed by X-Robots-Tag directive".data

/-- download_image (source lines 44-62): returns (key, payload?, error?) and
never raises.  The session's GET raising is the except branch; the policy
filter is consulted only when the directive set is truthy; a raise while
reading the body is also caught with the stream still absent. -/
def download_image (key : Nat) (session : SessionBehavior)
    (user_agent_token : Option PyStr) (disallowed : Option (List PyStr)) :
    Nat × Option Bytes × Option PyStr :=
  match session with
  | .raiseOnGet e => (key, none, some e)
  | .respond hdrs body =>
    if disTruthy disallowed
        && is_disallowed hdrs user_agent_token (disallowed.getD []) then
      (key, none, some robotsMsg)
    else
      match body with
      | .error e => (key, none, some e)
      | .ok b => (key, some b, none)

/-- One item of the producer/consumer handoff queue: the triple put on the
queue by download_image_with_retry (the sentinel is kept outside this type:
the consumer's input list holds the items before the sentinel). -/
structure QItem where
  key : Nat
  img : Option Bytes
  err : Option PyStr
  deriving Repr, DecidableEq

/-- The retry loop of download_image_with_retry (source lines 69-72), with
the attempt behaviours of the session given per attempt index.  fuel is the
number of loop iterations still allowed after the current one; i is the
current attempt index.  Returns the triple that is then put on the queue,
together with the number of download_image invocations made. -/
def retry_go (key : Nat) (net : Nat → SessionBehavior)
    (user_agent_token : Option PyStr) (disallowed : Option (List PyStr)) :
    Nat → Nat → QItem × Nat
  | 0, i =>
    let t := download_image key (net i) user_agent_token disallowed
    (⟨t.1, t.2.1, t.2.2⟩, i + 1)
  | fuel + 1, i =>
    let t := download_image key (net i) user_agent_token disallowed
    if t.2.1.isSome then (⟨t.1, t.2.1, t.2.2⟩, i + 1)
    else retry_go key net user_agent_token disallowed fuel (i + 1)

/-- download_image_with_retry (source lines 65-73): run the loop for
retries + 1 iterations starting at attempt 0; the returned QItem is the one
outcome enqueued for this row. -/
def download_image_with_retry (key : Nat) (net : Nat → SessionBehavior)
    (user_agent_token : Option PyStr) (disallowed : Option (List PyStr))
    (retries : Nat) : QItem × Nat :=
  retry_go key net user_agent_token disallowed retries 0

/-! ### The Key Codec: compute_key -/

/-- Decimal digit characters of n, most significant first; fuel-driven so the
kernel can evaluate it (decimalDigits supplies fuel larger than the digit
count). -/
def decDigitsAux : Nat → Nat → List Char
  | 0, _ => []
  | fuel + 1, n =>
    if n < 10 then [Nat.digitChar n]
    else decDigitsAux fuel (n / 10) ++ [Nat.digitChar (n % 10)]

/-- The decimal rendering of a natural number (what Python's d format
produces before padding). -/
def decimalDigits (n : Nat) : List Char := decDigitsAux (n + 1) n

/-- compute_key (source lines 76-82): combined integer
10 ^ oom_sample_per_shard * shard_id + key, rendered zero-padded to
oom_sample_per_shard + oom_shard_count characters (Python's 0Nd format pads
but never truncates). -/
def compute_key (key shard_id oom_sample_per_shard oom_shard_count : Nat) :
    PyStr :=
  let true_key := 10 ^ oom_sample_per_shard * shard_id + key
  let key_format := oom_sample_per_shard + oom_shard_count
  let s := decimalDigits true_key
  List.replicate (key_format - s.length) '0' ++ s

/-- The numeric value of a big-endian list of decimal digit characters; the
decoder used to state that compute_key's output renders the combined
integer. -/
def digitsVal (l : List Char) : Nat :=
  l.foldl (fun a c => 10 * a + (c.toNat - 48)) 0

/-! ### The Outcome Processor: save_task -/

/-- The metadata record built for each row (source lines 223-236 and the
later per-branch updates).  sample stands for the original row column
values; the exif field is present (some) exactly when extract_exif is set,
and the hash field is present exactly when compute_hash is configured. -/
structure MetaRec (σ : Type) where
  sample : σ
  key : PyStr
  status : Option PyStr
  error_message : Option PyStr
  width : Option Nat
  height : Option Nat
  original_width : Option Nat
  original_height : Option Nat
  exif : Option (Option PyStr)
  hash : Option (Option PyStr)
  deriving Repr, DecidableEq

/-- What the external resizer returns (source line 251-258): processed
image bytes, final and original dimensions, and an in-band error. -/
structure ResizeResult where
  img : Option Bytes
  width : Option Nat
  height : Option Nat
  original_width : Option Nat
  original_height : Option Nat
  err : Option PyStr
  deriving Repr, DecidableEq

/-- Per-shard configuration of the consumer loop: caption_of and bbox_of
model the caption_indice / bbox_indice column lookups on a row's data. -/
structure ShardConfig (σ : Type) where
  caption_of : σ → Option PyStr
  bbox_of : σ → Option PyStr
  extract_exif : Bool
  compute_hash : Option PyStr
  shard_id : Nat
  oom_sample_per_shard : Nat
  oom_shard_count : Nat

/-- The external collaborators called from inside the consumer's per-item
try block; each can raise (the .error case), which the loop's except clause
catches.  exif extraction has its own internal try, so its raising is
modelled by .error but never escapes the item (it stores an absent EXIF). -/
structure Collab (σ : Type) where
  resizer : Bytes → Option PyStr → Except PyStr ResizeResult
  write : Option Bytes → PyStr → Option PyStr → MetaRec σ → Except PyStr Unit
  exif_extract : Bytes → Except PyStr PyStr
  hash_fn : PyStr → Bytes → Except PyStr PyStr

/-- One recorded SampleWriter.write invocation: the arguments passed, plus
the dequeued local key at the call site. -/
structure WriteCall (σ : Type) where
  localKey : Nat
  img : Option Bytes
  str_key : PyStr
  caption : Option PyStr
  meta : MetaRec σ
  deriving Repr, DecidableEq

/-- The consumer loop's observable state: the three tallies, the
status_dict.increment calls in order, the write invocations in order, the
per-item exceptions logged by the except clause (key, message), and the
number of data_queue.task_done() acknowledgments issued. -/
structure SaveState (σ : Type) where
  successes : Nat
  failed_to_download : Nat
  failed_to_resize : Nat
  status_incs : List PyStr
  writes : List (WriteCall σ)
  exceptions : List (Nat × PyStr)
  task_done_count : Nat
  deriving Repr, DecidableEq

/-- The initial consumer state (source lines 173-178). -/
def initState (σ : Type) : SaveState σ :=
  ⟨0, 0, 0, [], [], [], 0⟩

/-- Message standing for the IndexError raised by shard_to_dl at an
out-of-range key. -/
def indexErrMsg : PyStr := "list index out of range".data

/-- Message standing for the AttributeError raised by img_stream.seek when
the dequeued item has neither payload nor error. -/
def noneStreamMsg : PyStr := "NoneType has no attribute seek".data

/-- The body of the consumer loop for one dequeued non-sentinel item
(source lines 220-314).  The finally clause's task_done runs on every
path; the except clause records the exception and leaves all effects
already performed in place. -/
def process_item {σ : Type} (cfg : ShardConfig σ) (c : Collab σ)
    (rows : List (Nat × σ)) (st : SaveState σ) (item : QItem) : SaveState σ :=
  let fin := fun (s : SaveState σ) =>
    { s with task_done_count := s.task_done_count + 1 }
  match rows.get? item.key with
  | none =>
    fin { st with exceptions := st.exceptions ++ [(item.key, indexErrMsg)] }
  | some (_, sample_data) =>
    let str_key := compute_key item.key cfg.shard_id
      cfg.oom_sample_per_shard cfg.oom_shard_count
    let caption := cfg.caption_of sample_data
    let meta0 : MetaRec σ :=
      { sample := sample_data
        key := str_key
        status := none
        error_message := item.err
        width := none, height := none
        original_width := none, original_height := none
        exif := if cfg.extract_exif then some none else none
        hash := if cfg.compute_hash.isSome then some none else none }
    match item.err with
    | some errmsg =>
      let st := { st with
        failed_to_download := st.failed_to_download + 1
        status_incs := st.status_incs ++ [errmsg] }
      let meta := { meta0 with status := some "failed_to_download".data }
      let st := { st with
        writes := st.writes ++ [⟨item.key, none, str_key, caption, meta⟩] }
      match c.write none str_key caption meta with
      | .error e =>
        fin { st with exceptions := st.exceptions ++ [(item.key, e)] }
      | .ok _ => fin st
    | none =>
      match item.img with
      | none =>
        fin { st with
          exceptions := st.exceptions ++ [(item.key, noneStreamMsg)] }
      | some stream =>
        match c.resizer stream (cfg.bbox_of sample_data) with
        | .error e =>
          fin { st with exceptions := st.exceptions ++ [(item.key, e)] }
        | .ok r =>
          match r.err with
          | some rerr =>
            let st := { st with
              failed_to_resize := st.failed_to_resize + 1
              status_incs := st.status_incs ++ [rerr] }
            let meta := { meta0 with
              status := some "failed_to_resize".data
              error_message := some rerr }
            let st := { st with
              writes := st.writes ++ [⟨item.key, none, str_key, caption, meta⟩] }
            match c.write none str_key caption meta with
            | .error e =>
              fin { st with exceptions := st.exceptions ++ [(item.key, e)] }
            | .ok _ => fin st
          | none =>
            let st := { st with
              successes := st.successes + 1
              status_incs := st.status_incs ++ ["success".data] }
            let exifVal : Option PyStr :=
              match c.exif_extract stream with
              | .ok s => some s
              | .error _ => none
            let meta1 := if cfg.extract_exif
              then { meta0 with exif := some exifVal } else meta0
            let hashStep : Except PyStr (Option (Option PyStr)) :=
              match cfg.compute_hash with
              | none => .ok none
              | some alg =>
                match c.hash_fn alg stream with
                | .error e => .error e
                | .ok hv => .ok (some (some hv))
            match hashStep with
            | .error e =>
              fin { st with exceptions := st.exceptions ++ [(item.key, e)] }
            | .ok hv =>
              let meta2 := { meta1 with
                status := some "success".data
                width := r.width, height := r.height
                original_width := r.original_width
                original_height := r.original_height
                hash := hv }
              let st := { st with
                writes := st.writes ++ [⟨item.key, r.img, str_key, caption, meta2⟩] }
              match c.write r.img str_key caption meta2 with
              | .error e =>
                fin { st with exceptions := st.exceptions ++ [(item.key, e)] }
              | .ok _ => fin st

/-- The consumer loop save_task (source lines 214-314) over the queue items
dequeued before the sentinel; the sentinel makes the loop break before its
try/finally, so it produces no state change and no task_done. -/
def save_task_loop {σ : Type} (cfg : ShardConfig σ) (c : Collab σ)
    (rows : List (Nat × σ)) : SaveState σ → List QItem → SaveState σ
  | st, [] => st
  | st, item :: rest =>
    save_task_loop cfg c rows (process_item cfg c rows st item) rest

/-! ### The producer side and the shard runner -/

/-- The outcomes the producers put on the queue, one per work-list row, in
row order (the consumer may dequeue them in any arrival order). -/
def producer_outcomes {σ : Type} (rows : List (Nat × σ))
    (net : Nat → Nat → SessionBehavior) (user_agent_token : Option PyStr)
    (disallowed : Option (List PyStr)) (retries : Nat) : List QItem :=
  rows.map (fun r =>
    (download_image_with_retry r.1 (net r.1) user_agent_token disallowed retries).1)

/-- The number of data_queue.put calls made by download_task for a shard of
n rows: one per row plus the sentinel (source lines 210-211). -/
def producer_put_count (n : Nat) : Nat := n + 1

/-- Observable events of one download_shard run, in order. -/
inductive ShardEvent where
  | consumerDone
  | writerClosed
  | statsEmitted
  | sourceRemoved
  deriving Repr, DecidableEq

/-- The shard-level collaborators of download_shard that can raise: reading
the shard source (open/read/schema/select, lines 149-182), the writer's
close (line 322), the stats write (line 327) and the source removal
(line 339). -/
structure RunnerCollab (σ : Type) where
  load : Except PyStr (List σ)
  close_result : Except PyStr Unit
  stats_result : Except PyStr Unit
  rm_result : Except PyStr Unit

/-- download_shard (source lines 140-339): load the shard, run the consumer
loop over the dequeued items, then close the writer, emit stats and remove
the source, each step propagating a raise (there is no try inside
download_shard).  qs is the dequeue order of the non-sentinel queue items.
Returns the event trace and either the final consumer state or the
propagated exception. -/
def download_shard {σ : Type} (cfg : ShardConfig σ) (c : Collab σ)
    (rc : RunnerCollab σ) (qs : List QItem) :
    List ShardEvent × Except PyStr (SaveState σ) :=
  match rc.load with
  | .error e => ([], .error e)
  | .ok data =>
    let rows := data.enum
    let st := save_task_loop cfg c rows (initState σ) qs
    match rc.close_result with
    | .error e => ([ShardEvent.consumerDone], .error e)
    | .ok _ =>
      match rc.stats_result with
      | .error e =>
        ([ShardEvent.consumerDone, ShardEvent.writerClosed], .error e)
      | .ok _ =>
        match rc.rm_result with
        | .error e =>
          ([ShardEvent.consumerDone, ShardEvent.writerClosed,
            ShardEvent.statsEmitted], .error e)
        | .ok _ =>
          ([ShardEvent.consumerDone, ShardEvent.writerClosed,
            ShardEvent.statsEmitted, ShardEvent.sourceRemoved], .ok st)

/-- AsyncDownloader.__call__ (source lines 128-138): run download_shard
under a catch-all; report (True, row) on completion and (False, row) when
anything raised. -/
def downloader_call {σ : Type} (cfg : ShardConfig σ) (c : Collab σ)
    (rc : RunnerCollab σ) (qs : List QItem) (row : Nat × PyStr) :
    Bool × (Nat × PyStr) :=
  match (download_shard cfg c rc qs).2 with
  | .error _ => (false, row)
  | .ok _ => (true, row)

/-! ### Spec-side definition for the Policy Filter claim -/

/-- Modelled from the claim's words (not the source): the matching rule of
one X-Robots-Tag value with the token trimmed as well as lower-cased
before comparison with the configured token. -/
def valueMatchesSpec (v : PyStr) (user_agent_token : Option PyStr)
    (disallowed : List PyStr) : Bool :=
  let tokOpt := match splitFirst ':' v with
    | none => none
    | some (tok, _) => some (lowerChars (trimChars tok))
  (tokOpt.isNone || tokOpt == user_agent_token)
    && (dirListOf v).any (fun d => disallowed.contains d)

/-- Modelled from the claim's words (not the source): is_disallowed with the
token-trimming matching rule the claim describes. -/
def is_disallowed_spec (headerValues : List PyStr)
    (user_agent_token : Option PyStr) (disallowed : List PyStr) : Bool :=
  headerValues.any (fun v => valueMatchesSpec v user_agent_token disallowed)

/-! ### Collaborator behaviour predicates -/

/-- The writer never raises. -/
def WriteOk {σ : Type} (c : Collab σ) : Prop :=
  ∀ i k cap m, c.write i k cap m = Except.ok ()

/-- The resizer never raises (it may still report an in-band error). -/
def ResizeOk {σ : Type} (c : Collab σ) : Prop :=
  ∀ b bb, ∃ r, c.resizer b bb = Except.ok r

/-- The hash primitive never raises. -/
def HashOk {σ : Type} (c : Collab σ) : Prop :=
  ∀ alg b, ∃ h, c.hash_fn alg b = Except.ok h

/-- No per-item unexpected exception can arise from the collaborators. -/
def NoRaise {σ : Type} (c : Collab σ) : Prop :=
  WriteOk c ∧ ResizeOk c ∧ HashOk c

/-! ### Concrete fixtures used by the closed witnesses and counterexamples -/

/-- Fixture shard configuration: no caption, no bbox, no exif, no hash. -/
def cfgW : ShardConfig Unit :=
  ⟨fun _ => none, fun _ => none, false, none, 0, 1, 1⟩

/-- Fixture collaborators that never raise. -/
def collabOkW : Collab Unit :=
  ⟨fun b _ => .ok ⟨some b, some 1, some 2, some 3, some 4, none⟩,
   fun _ _ _ _ => .ok (),
   fun _ => .ok "exif".data,
   fun _ _ => .ok "hash".data⟩

/-- Fixture collaborators whose writer always raises. -/
def collabWriteFailW : Collab Unit :=
  { collabOkW with write := fun _ _ _ _ => .error "disk full".data }

/-- Fixture collaborators whose resizer always raises. -/
def collabResizeRaiseW : Collab Unit :=
  { collabOkW with resizer := fun _ _ => .error "resizer crashed".data }

/-- Fixture shard data: two rows. -/
def dataW : List Unit := [(), ()]

/-- Fixture shard data: one row. -/
def dataOneW : List Unit := [()]

/-- Fixture network: every GET succeeds with a one-byte body naming the row. -/
def netW : Nat → Nat → SessionBehavior := fun k _ => .respond [] (.ok [k])

/-- Fixture dequeue order: the producer outcomes of dataW reversed. -/
def qsW : List QItem := (producer_outcomes dataW.enum netW none none 0).reverse

/-- Fixture dequeue order for the one-row shard. -/
def qsOneW : List QItem := producer_outcomes dataOneW.enum netW none none 0

/-- Fixture shard-level collaborators that all succeed. -/
def rcOkW : RunnerCollab Unit := ⟨.ok dataW, .ok (), .ok (), .ok ()⟩

/-- Fixture shard-level collaborators for the one-row shard. -/
def rcOneW : RunnerCollab Unit := ⟨.ok dataOneW, .ok (), .ok (), .ok ()⟩

/-- Fixture shard-level collaborators whose writer close raises. -/
def rcCloseFailW : RunnerCollab Unit :=
  { rcOkW with close_result := .error "close failed".data }

/-- Fixture per-attempt network: two failures then a success. -/
def netRetryW : Nat → SessionBehavior := fun i =>
  if i < 2 then .raiseOnGet ("e".data ++ decimalDigits i)
  else .respond [] (.ok [9])

/-- Fixture per-attempt network: every attempt fails, distinct messages. -/
def netFailW : Nat → SessionBehavior := fun i =>
  .raiseOnGet ("e".data ++ decimalDigits i)

/-! ## Helper lemmas about the Fetcher -/

theorem download_image_fst (key : Nat) (sess : SessionBehavior)
    (ua : Option PyStr) (dis : Option (List PyStr)) :
    (download_image key sess ua dis).1 = key := by
  cases sess with
  | raiseOnGet e => rfl
  | respond h b =>
    simp only [download_image]
    split
    · rfl
    · cases b <;> rfl

theorem download_image_not_both_none (key : Nat) (sess : SessionBehavior)
    (ua : Option PyStr) (dis : Option (List PyStr)) :
    ¬((download_image key sess ua dis).2.1 = none
      ∧ (download_image key sess ua dis).2.2 = none) := by
  cases sess with
  | raiseOnGet e => simp [download_image]
  | respond h b =>
    simp only [download_image]
    split
    · simp
    · cases b <;> simp

/-- C3 -- For every input row and every session behaviour (normal response,
transport/timeout/protocol error, exception while reading the body),
download_image returns a triple whose key equals the input key, with
exactly one of payload/error non-absent (the both-absent shape is never
returned); on success the payload is the full body; a raised GET yields a
failure carrying that error's description. -/
theorem download_image_boundary (key : Nat) (sess : SessionBehavior)
    (ua : Option PyStr) (dis : Option (List PyStr)) :
    (download_image key sess ua dis).1 = key
    ∧ ((download_image key sess ua dis).2.1.isSome ↔
        (download_image key sess ua dis).2.2 = none)
    ∧ ((download_image key sess ua dis).2.2 = none →
        ∃ h b, sess = SessionBehavior.respond h (Except.ok b)
          ∧ (download_image key sess ua dis).2.1 = some b)
    ∧ (∀ e, sess = SessionBehavior.raiseOnGet e →
        download_image key sess ua dis = (key, none, some e)) := by
  refine ⟨download_image_fst key sess ua dis, ?_, ?_, ?_⟩
  · cases sess with
    | raiseOnGet e => simp [download_image]
    | respond h b =>
      simp only [download_image]
      split
      · simp
      · cases b <;> simp
  · cases sess with
    | raiseOnGet e => simp [download_image]
    | respond h b =>
      simp only [download_image]
      split
      · simp
      · cases b with
        | error e => simp
        | ok bod => intro _; exact ⟨h, bod, rfl, rfl⟩
  · intro e he
    subst he
    rfl

/-- C3 witness: a successful concrete GET comes back as the body with no
error and the input key. -/
theorem download_image_boundary_witness :
    (download_image 5 (SessionBehavior.respond [] (Except.ok [1, 2])) none none).1 = 5
    ∧ ∃ h b,
        SessionBehavior.respond [] (Except.ok [1, 2])
          = SessionBehavior.respond h (Except.ok b)
        ∧ (download_image 5 (SessionBehavior.respond [] (Except.ok [1, 2]))
            none none).2.1 = some b :=
  ⟨(download_image_boundary 5 (SessionBehavior.respond [] (Except.ok [1, 2]))
      none none).1,
   (download_image_boundary 5 (SessionBehavior.respond [] (Except.ok [1, 2]))
      none none).2.2.1 (by decide)⟩

/-- C10 -- with an absent or empty disallowed-directive set, download_image
behaves exactly as with no directive set configured: the outcome is the
session's own success body or caught error, and the policy-rejection
branch is never taken. -/
theorem download_image_no_policy_when_unset (key : Nat) (sess : SessionBehavior)
    (ua : Option PyStr) (dis : Option (List PyStr))
    (hdis : dis = none ∨ dis = some []) :
    download_image key sess ua dis = download_image key sess ua none
    ∧ download_image key sess ua dis =
        (match sess with
         | .raiseOnGet e => (key, none, some e)
         | .respond _ (.error e) => (key, none, some e)
         | .respond _ (.ok b) => (key, some b, none)) := by
  rcases hdis with h | h <;> subst h <;>
    cases sess with
    | raiseOnGet e => exact ⟨rfl, rfl⟩
    | respond hd b => cases b <;> simp [download_image, disTruthy]

/-- C10 witness: with an empty configured set, a response whose header would
match the filter still comes back as a success. -/
theorem download_image_no_policy_witness :
    download_image 3 (SessionBehavior.respond ["noindex".data] (Except.ok [1]))
      (some "mybot".data) (some []) = (3, some [1], none) := by
  have h := (download_image_no_policy_when_unset 3
    (SessionBehavior.respond ["noindex".data] (Except.ok [1]))
    (some "mybot".data) (some []) (Or.inr rfl)).2
  rw [h]

/-! ## Helper lemmas about the retry loop -/

theorem retry_go_key (key : Nat) (net : Nat → SessionBehavior)
    (ua : Option PyStr) (dis : Option (List PyStr)) :
    ∀ fuel i, (retry_go key net ua dis fuel i).1.key = key := by
  intro fuel
  induction fuel with
  | zero => intro i; simp [retry_go, download_image_fst]
  | succ f ih =>
    intro i
    simp only [retry_go]
    split
    · simp [download_image_fst]
    · exact ih (i + 1)

theorem retry_go_not_both_none (key : Nat) (net : Nat → SessionBehavior)
    (ua : Option PyStr) (dis : Option (List PyStr)) :
    ∀ fuel i, ¬((retry_go key net ua dis fuel i).1.img = none
      ∧ (retry_go key net ua dis fuel i).1.err = none) := by
  intro fuel
  induction fuel with
  | zero => intro i; simpa [retry_go] using download_image_not_both_none key (net i) ua dis
  | succ f ih =>
    intro i
    simp only [retry_go]
    split
    · simpa using download_image_not_both_none key (net i) ua dis
    · exact ih (i + 1)

theorem retry_go_count_le (key : Nat) (net : Nat → SessionBehavior)
    (ua : Option PyStr) (dis : Option (List PyStr)) :
    ∀ fuel i, (retry_go key net ua dis fuel i).2 ≤ i + fuel + 1 := by
  intro fuel
  induction fuel with
  | zero => intro i; simp [retry_go]
  | succ f ih =>
    intro i
    simp only [retry_go]
    split
    · omega
    · have := ih (i + 1); omega

theorem retry_go_all_fail (key : Nat) (net : Nat → SessionBehavior)
    (ua : Option PyStr) (dis : Option (List PyStr)) :
    ∀ fuel i,
      (∀ j, i ≤ j → j ≤ i + fuel → (download_image key (net j) ua dis).2.1 = none) →
      retry_go key net ua dis fuel i =
        (⟨key, (download_image key (net (i + fuel)) ua dis).2.1,
          (download_image key (net (i + fuel)) ua dis).2.2⟩, i + fuel + 1) := by
  intro fuel
  induction fuel with
  | zero =>
    intro i _
    simp [retry_go, download_image_fst]
  | succ f ih =>
    intro i hfail
    have h0 : (download_image key (net i) ua dis).2.1 = none :=
      hfail i le_rfl (by omega)
    simp only [retry_go, h0, Option.isSome_none, Bool.false_eq_true, if_false]
    have := ih (i + 1) (fun j hj hj' => hfail j (by omega) (by omega))
    rw [this]
    have harith : i + 1 + f = i + (f + 1) := by omega
    rw [harith]

theorem retry_go_first_success (key : Nat) (net : Nat → SessionBehavior)
    (ua : Option PyStr) (dis : Option (List PyStr)) :
    ∀ fuel i j, i ≤ j → j ≤ i + fuel →
      (∀ l, i ≤ l → l < j → (download_image key (net l) ua dis).2.1 = none) →
      (download_image key (net j) ua dis).2.1.isSome →
      retry_go key net ua dis fuel i =
        (⟨key, (download_image key (net j) ua dis).2.1,
          (download_image key (net j) ua dis).2.2⟩, j + 1) := by
  intro fuel
  induction fuel with
  | zero =>
    intro i j hij hji _ _
    have : j = i := by omega
    subst this
    simp [retry_go, download_image_fst]
  | succ f ih =>
    intro i j hij hji hfail hsucc
    rcases Nat.eq_or_lt_of_le hij with heq | hlt
    · subst heq
      simp only [retry_go, hsucc, if_true]
      simp [download_image_fst]
    · have h0 : (download_image key (net i) ua dis).2.1 = none :=
        hfail i le_rfl hlt
      simp only [retry_go, h0, Option.isSome_none, Bool.false_eq_true, if_false]
      exact ih (i + 1) j hlt (by omega) (fun l hl hl' => hfail l (by omega) hl') hsucc

/-- C4 -- download_image_with_retry makes at most retries + 1 attempts,
stops at the first attempt with a non-absent payload and enqueues that
attempt's outcome; if every attempt fails it enqueues the last attempt's
failure outcome with that attempt's error text; the outcome's key is the
row key. -/
theorem download_image_with_retry_spec (key : Nat) (net : Nat → SessionBehavior)
    (ua : Option PyStr) (dis : Option (List PyStr)) (retries : Nat) :
    (download_image_with_retry key net ua dis retries).1.key = key
    ∧ (download_image_with_retry key net ua dis retries).2 ≤ retries + 1
    ∧ (∀ j, j ≤ retries →
        (∀ l, l < j → (download_image key (net l) ua dis).2.1 = none) →
        (download_image key (net j) ua dis).2.1.isSome →
        download_image_with_retry key net ua dis retries =
          (⟨key, (download_image key (net j) ua dis).2.1,
            (download_image key (net j) ua dis).2.2⟩, j + 1))
    ∧ ((∀ j, j ≤ retries → (download_image key (net j) ua dis).2.1 = none) →
        download_image_with_retry key net ua dis retries =
          (⟨key, (download_image key (net retries) ua dis).2.1,
            (download_image key (net retries) ua dis).2.2⟩, retries + 1)) := by
  refine ⟨retry_go_key key net ua dis retries 0, ?_, ?_, ?_⟩
  · simpa using retry_go_count_le key net ua dis retries 0
  · intro j hj hfail hsucc
    exact retry_go_first_success key net ua dis retries 0 j (Nat.zero_le j)
      (by omega) (fun l _ hl => hfail l hl) hsucc
  · intro hfail
    simpa [download_image_with_retry] using
      retry_go_all_fail key net ua dis retries 0 (fun j _ hj => hfail j (by omega))

/-- C4 witness: with retries = 2, fail-fail-succeed yields the success
outcome after three attempts, and fail-fail-fail yields the third
attempt's failure outcome. -/
theorem download_image_with_retry_witness :
    download_image_with_retry 7 netRetryW none none 2 = (⟨7, some [9], none⟩, 3)
    ∧ download_image_with_retry 7 netFailW none none 2
        = (⟨7, none, some ("e".data ++ decimalDigits 2)⟩, 3) := by
  constructor
  · have h := (download_image_with_retry_spec 7 netRetryW none none 2).2.2.1 2
      (by decide) (by decide) (by decide)
    rw [h]; decide
  · have h := (download_image_with_retry_spec 7 netFailW none none 2).2.2.2
      (by decide)
    rw [h]; decide

/-! ## Helper lemmas about the Key Codec -/

theorem digitChar_val : ∀ d, d < 10 → (Nat.digitChar d).toNat - 48 = d := by decide

theorem digitsVal_append_singleton (l : List Char) (c : Char) :
    digitsVal (l ++ [c]) = 10 * digitsVal l + (c.toNat - 48) := by
  simp [digitsVal, List.foldl_append]

theorem digitsVal_cons_zero (t : List Char) : digitsVal ('0' :: t) = digitsVal t := by
  simp [digitsVal]

theorem digitsVal_replicate_zero (k : Nat) (l : List Char) :
    digitsVal (List.replicate k '0' ++ l) = digitsVal l := by
  induction k with
  | zero => simp
  | succ n ih =>
    rw [List.replicate_succ, List.cons_append, digitsVal_cons_zero]
    exact ih

theorem decDigitsAux_val : ∀ fuel n, n < 10 ^ fuel →
    digitsVal (decDigitsAux fuel n) = n := by
  intro fuel
  induction fuel with
  | zero =>
    intro n hn
    interval_cases n
    rfl
  | succ f ih =>
    intro n hn
    by_cases h : n < 10
    · simp only [decDigitsAux, h, if_true]
      have : digitsVal [Nat.digitChar n] = n := by
        simp [digitsVal, digitChar_val n h]
      exact this
    · simp only [decDigitsAux, h, if_false]
      rw [digitsVal_append_singleton]
      have hdiv : n / 10 < 10 ^ f := by
        rw [Nat.div_lt_iff_lt_mul (by norm_num)]
        calc n < 10 ^ (f + 1) := hn
          _ = 10 ^ f * 10 := by ring
      rw [ih (n / 10) hdiv, digitChar_val (n % 10) (Nat.mod_lt n (by norm_num))]
      omega

theorem decimalDigits_val (n : Nat) : digitsVal (decimalDigits n) = n := by
  apply decDigitsAux_val
  calc n < 10 ^ n := Nat.lt_pow_self (by norm_num) n
    _ ≤ 10 ^ (n + 1) := Nat.pow_le_pow_right (by norm_num) (Nat.le_succ n)

theorem compute_key_val (k s ws wc : Nat) :
    digitsVal (compute_key k s ws wc) = 10 ^ ws * s + k := by
  unfold compute_key
  rw [digitsVal_replicate_zero, decimalDigits_val]

theorem decDigitsAux_len_le : ∀ fuel n w, n < 10 ^ fuel → n < 10 ^ w → 1 ≤ w →
    (decDigitsAux fuel n).length ≤ w := by
  intro fuel
  induction fuel with
  | zero =>
    intro n w hn _ hw
    interval_cases n
    simp [decDigitsAux]
  | succ f ih =>
    intro n w hn hnw hw
    by_cases h : n < 10
    · simp only [decDigitsAux, h, if_true, List.length_singleton]
      exact hw
    · simp only [decDigitsAux, h, if_false, List.length_append,
        List.length_singleton]
      have h2w : 2 ≤ w := by
        by_contra hc
        have : w = 1 := by omega
        subst this
        simp at hnw
        omega
      have hfd : n / 10 < 10 ^ f := by
        rw [Nat.div_lt_iff_lt_mul (by norm_num)]
        calc n < 10 ^ (f + 1) := hn
          _ = 10 ^ f * 10 := by ring
      have hwd : n / 10 < 10 ^ (w - 1) := by
        rw [Nat.div_lt_iff_lt_mul (by norm_num)]
        calc n < 10 ^ w := hnw
          _ = 10 ^ (w - 1) * 10 := by
            rw [← pow_succ]
            congr 1
            omega
      have := ih (n / 10) (w - 1) hfd hwd (by omega)
      omega

theorem decimalDigits_len_le (n w : Nat) (hn : n < 10 ^ w) (hw : 1 ≤ w) :
    (decimalDigits n).length ≤ w := by
  apply decDigitsAux_len_le (n + 1) n w _ hn hw
  calc n < 10 ^ n := Nat.lt_pow_self (by norm_num) n
    _ ≤ 10 ^ (n + 1) := Nat.pow_le_pow_right (by norm_num) (Nat.le_succ n)

theorem true_key_lt (k s ws wc : Nat) (hk : k < 10 ^ ws) (hs : s < 10 ^ wc) :
    10 ^ ws * s + k < 10 ^ (ws + wc) := by
  calc 10 ^ ws * s + k < 10 ^ ws * s + 10 ^ ws := by omega
    _ = 10 ^ ws * (s + 1) := by ring
    _ ≤ 10 ^ ws * 10 ^ wc := Nat.mul_le_mul_left _ (by omega)
    _ = 10 ^ (ws + wc) := (pow_add 10 ws wc).symm

theorem compute_key_length (k s ws wc : Nat) (hk : k < 10 ^ ws)
    (hs : s < 10 ^ wc) (hw : 1 ≤ ws + wc) :
    (compute_key k s ws wc).length = ws + wc := by
  have hlt := true_key_lt k s ws wc hk hs
  have hlen := decimalDigits_len_le (10 ^ ws * s + k) (ws + wc) hlt hw
  unfold compute_key
  simp only [List.length_append, List.length_replicate]
  omega

/-- C5 counterexample: at shard_id = 0, local_key = 0, w_s = w_c = 0 (a
point of the claim's domain since 0 < 10 ^ 0 on both coordinates), the
output has length 1, not w_s + w_c = 0 as the claim states. -/
theorem compute_key_claim_cex :
    0 < 10 ^ 0 ∧ 0 < 10 ^ 0 ∧ (compute_key 0 0 0 0).length ≠ 0 + 0 := by
  decide

/-- C5 (amended with 1 ≤ w_s + w_c) -- for all shard_id < 10^w_c and
local_key < 10^w_s with a positive total width, compute_key returns the
zero-padded decimal rendering of 10^w_s * shard_id + local_key in exactly
w_s + w_c characters (digitsVal decodes it back to the combined integer),
and the map (shard_id, local_key) to string is injective over that
domain. -/
theorem compute_key_spec (ws wc : Nat) (hw : 1 ≤ ws + wc) :
    (∀ k s, k < 10 ^ ws → s < 10 ^ wc →
      (compute_key k s ws wc).length = ws + wc
      ∧ digitsVal (compute_key k s ws wc) = 10 ^ ws * s + k)
    ∧ (∀ k₁ s₁ k₂ s₂, k₁ < 10 ^ ws → s₁ < 10 ^ wc → k₂ < 10 ^ ws → s₂ < 10 ^ wc →
      compute_key k₁ s₁ ws wc = compute_key k₂ s₂ ws wc →
      k₁ = k₂ ∧ s₁ = s₂) := by
  constructor
  · intro k s hk hs
    exact ⟨compute_key_length k s ws wc hk hs hw, compute_key_val k s ws wc⟩
  · intro k₁ s₁ k₂ s₂ hk₁ hs₁ hk₂ hs₂ heq
    have hval : 10 ^ ws * s₁ + k₁ = 10 ^ ws * s₂ + k₂ := by
      rw [← compute_key_val k₁ s₁ ws wc, ← compute_key_val k₂ s₂ ws wc, heq]
    have hp : 0 < 10 ^ ws := Nat.pos_pow_of_pos ws (by norm_num)
    have hs : s₁ = s₂ := by
      have h1 : (10 ^ ws * s₁ + k₁) / 10 ^ ws = s₁ := by
        rw [Nat.mul_add_div hp, Nat.div_eq_of_lt hk₁]
        omega
      have h2 : (10 ^ ws * s₂ + k₂) / 10 ^ ws = s₂ := by
        rw [Nat.mul_add_div hp, Nat.div_eq_of_lt hk₂]
        omega
      rw [← h1, ← h2, hval]
    constructor
    · have := hval
      rw [hs] at this
      omega
    · exact hs

/-- C5 witness: at widths (1, 1), keys 3 and shard 2, the key is the two
characters of 23 and decodes back to 23. -/
theorem compute_key_spec_witness :
    (compute_key 3 2 1 1).length = 1 + 1
    ∧ digitsVal (compute_key 3 2 1 1) = 10 ^ 1 * 2 + 3 :=
  (compute_key_spec 1 1 (by decide)).1 3 2 (by decide) (by decide)

/-! ## The Policy Filter -/

/-- C6 counterexample: the source lower-cases the header token but does not
trim it (line 25 applies .lower() only), so the value "mybot : noindex"
with configured token mybot and disallowed set containing noindex does not
match even though the claim's trimming rule says it must. -/
theorem is_disallowed_claim_cex :
    is_disallowed_spec ["mybot : noindex".data] (some "mybot".data)
      ["noindex".data] = true
    ∧ is_disallowed ["mybot : noindex".data] (some "mybot".data)
      ["noindex".data] = false := by
  decide

/-- C6 (amended: the token is lower-cased but NOT trimmed before the
comparison; directives are trimmed and lower-cased) -- is_disallowed is
true exactly when some header value's optional token is absent or equal to
the configured token and some of its parsed directives is in the
disallowed set. -/
theorem is_disallowed_amended (hv : List PyStr) (ua : Option PyStr)
    (dis : List PyStr) :
    is_disallowed hv ua dis = true ↔
      ∃ v ∈ hv, (uaTokenOf v = none ∨ uaTokenOf v = ua)
        ∧ ∃ d ∈ dirListOf v, d ∈ dis := by
  simp only [is_disallowed, List.any_eq_true, valueMatches, Bool.and_eq_true,
    Bool.or_eq_true, Option.isNone_iff_eq_none, beq_iff_eq, List.elem_iff,
    decide_eq_true_eq]

/-- C6 witness: a tokenless value whose directive is disallowed matches. -/
theorem is_disallowed_amended_witness :
    ∃ v ∈ (["noindex".data] : List PyStr),
      (uaTokenOf v = none ∨ uaTokenOf v = some "mybot".data)
      ∧ ∃ d ∈ dirListOf v, d ∈ ["noindex".data] :=
  (is_disallowed_amended ["noindex".data] (some "mybot".data)
    ["noindex".data]).mp (by decide)

/-! ## Helper lemmas about the consumer loop -/

theorem process_item_taskdone {σ : Type} (cfg : ShardConfig σ) (c : Collab σ)
    (rows : List (Nat × σ)) (st : SaveState σ) (item : QItem) :
    (process_item cfg c rows st item).task_done_count = st.task_done_count + 1 := by
  simp only [process_item]
  repeat' split
  all_goals rfl

theorem save_task_loop_taskdone {σ : Type} (cfg : ShardConfig σ) (c : Collab σ)
    (rows : List (Nat × σ)) :
    ∀ qs st, (save_task_loop cfg c rows st qs).task_done_count
      = st.task_done_count + qs.length := by
  intro qs
  induction qs with
  | nil => intro st; simp [save_task_loop]
  | cons q rest ih =>
    intro st
    simp only [save_task_loop, List.length_cons]
    rw [ih, process_item_taskdone]
    omega

theorem process_item_writes_key {σ : Type} (cfg : ShardConfig σ) (c : Collab σ)
    (rows : List (Nat × σ)) (st : SaveState σ) (item : QItem)
    (hrow : (rows.get? item.key).isSome)
    (hW : WriteOk c) (hR : ResizeOk c) (hH : HashOk c)
    (hshape : ¬(item.img = none ∧ item.err = none)) :
    (process_item cfg c rows st item).writes.map (fun w => w.localKey)
      = st.writes.map (fun w => w.localKey) ++ [item.key] := by
  have hW' : ∀ i k cap m, c.write i k cap m = Except.ok () := hW
  rcases hg : rows[item.key]? with _ | ⟨k, sd⟩
  · rw [List.get?_eq_getElem?, hg] at hrow; simp at hrow
  · cases herr : item.err with
    | some m =>
      simp [process_item, hg, herr, hW']
    | none =>
      cases himg : item.img with
      | none => exact absurd ⟨himg, herr⟩ hshape
      | some b =>
        obtain ⟨r, hr⟩ := hR b (cfg.bbox_of sd)
        cases hre : r.err with
        | some rm => simp [process_item, hg, herr, himg, hr, hre, hW']
        | none =>
          cases hch : cfg.compute_hash with
          | none => simp [process_item, hg, herr, himg, hr, hre, hch, hW']
          | some alg =>
            obtain ⟨hv, hh⟩ := hH alg b
            simp [process_item, hg, herr, himg, hr, hre, hch, hh, hW']

theorem save_task_loop_writes_keys {σ : Type} (cfg : ShardConfig σ) (c : Collab σ)
    (rows : List (Nat × σ)) (hW : WriteOk c) (hR : ResizeOk c) (hH : HashOk c) :
    ∀ qs st,
      (∀ item ∈ qs, (rows.get? item.key).isSome
        ∧ ¬(item.img = none ∧ item.err = none)) →
      (save_task_loop cfg c rows st qs).writes.map (fun w => w.localKey)
        = st.writes.map (fun w => w.localKey) ++ qs.map (fun q => q.key) := by
  intro qs
  induction qs with
  | nil => intro st _; simp [save_task_loop]
  | cons q rest ih =>
    intro st hq
    simp only [save_task_loop]
    rw [ih _ (fun i hi => hq i (List.mem_cons_of_mem q hi))]
    rw [process_item_writes_key cfg c rows st q
      (hq q (List.mem_cons_self q rest)).1 hW hR hH
      (hq q (List.mem_cons_self q rest)).2]
    simp

theorem producer_outcomes_keys {σ : Type} (rows : List (Nat × σ))
    (net : Nat → Nat → SessionBehavior) (ua : Option PyStr)
    (dis : Option (List PyStr)) (retries : Nat) :
    (producer_outcomes rows net ua dis retries).map (fun q => q.key)
      = rows.map Prod.fst := by
  simp [producer_outcomes, download_image_with_retry, List.map_map,
    Function.comp, retry_go_key]

theorem producer_outcomes_shape {σ : Type} (rows : List (Nat × σ))
    (net : Nat → Nat → SessionBehavior) (ua : Option PyStr)
    (dis : Option (List PyStr)) (retries : Nat) :
    ∀ item ∈ producer_outcomes rows net ua dis retries,
      ¬(item.img = none ∧ item.err = none) := by
  intro item hi
  simp only [producer_outcomes, List.mem_map] at hi
  obtain ⟨r, _, rfl⟩ := hi
  exact retry_go_not_both_none r.1 (net r.1) ua dis retries 0

theorem producer_outcomes_key_lt {σ : Type} (data : List σ)
    (net : Nat → Nat → SessionBehavior) (ua : Option PyStr)
    (dis : Option (List PyStr)) (retries : Nat) :
    ∀ item ∈ producer_outcomes data.enum net ua dis retries,
      item.key < data.length := by
  intro item hi
  simp only [producer_outcomes, List.mem_map] at hi
  obtain ⟨r, hr, rfl⟩ := hi
  have hk : (download_image_with_retry r.1 (net r.1) ua dis retries).1.key = r.1 :=
    retry_go_key r.1 (net r.1) ua dis retries 0
  rw [hk]
  simpa using List.fst_lt_of_mem_enum hr

/-- C1 -- in a shard run where no per-item unexpected exception occurs
(the collaborators never raise), whatever order qs the consumer dequeues
the producers' outcomes in, SampleWriter.write is invoked exactly once per
row local key of the work list: the number of writes equals the number of
rows and every local key below the row count is written exactly once,
whether its outcome was a download failure, a resize failure or a
success. -/
theorem save_task_writes_once {σ : Type} (cfg : ShardConfig σ) (c : Collab σ)
    (data : List σ) (net : Nat → Nat → SessionBehavior) (ua : Option PyStr)
    (dis : Option (List PyStr)) (retries : Nat) (qs : List QItem)
    (hNR : NoRaise c)
    (hq : qs.Perm (producer_outcomes data.enum net ua dis retries)) :
    (save_task_loop cfg c data.enum (initState σ) qs).writes.length = data.length
    ∧ ∀ k, k < data.length →
      ((save_task_loop cfg c data.enum (initState σ) qs).writes.map
        (fun w => w.localKey)).count k = 1 := by
  obtain ⟨hW, hR, hH⟩ := hNR
  have hitems : ∀ item ∈ qs, (data.enum.get? item.key).isSome
      ∧ ¬(item.img = none ∧ item.err = none) := by
    intro item hi
    have hmem : item ∈ producer_outcomes data.enum net ua dis retries :=
      hq.mem_iff.mp hi
    constructor
    · have hk := producer_outcomes_key_lt data net ua dis retries item hmem
      have hk' : item.key < data.enum.length := by simpa using hk
      rw [List.get?_eq_getElem?, List.getElem?_eq_getElem hk']
      rfl
    · exact producer_outcomes_shape data.enum net ua dis retries item hmem
  have hkeys := save_task_loop_writes_keys cfg c data.enum hW hR hH qs
    (initState σ) hitems
  have hinit : (initState σ).writes.map (fun w => w.localKey) = [] := rfl
  rw [hinit, List.nil_append] at hkeys
  constructor
  · have hlen : ((save_task_loop cfg c data.enum (initState σ) qs).writes.map
        (fun w => w.localKey)).length = qs.length := by
      rw [hkeys]; simp
    have hqlen : qs.length = data.length := by
      rw [hq.length_eq]
      simp [producer_outcomes]
    simpa using hlen.trans hqlen
  · intro k hk
    rw [hkeys]
    have hperm : (qs.map (fun q => q.key)).Perm (data.enum.map Prod.fst) := by
      have h := hq.map (fun q => q.key)
      rwa [producer_outcomes_keys] at h
    rw [hperm.count_eq, List.enum_map_fst]
    exact List.count_eq_one_of_mem (List.nodup_range data.length)
      (List.mem_range.mpr hk)

/-- C1 witness: a two-row shard consumed in reversed arrival order writes
local key 0 exactly once. -/
theorem save_task_writes_once_witness :
    ((save_task_loop cfgW collabOkW dataW.enum (initState Unit) qsW).writes.map
      (fun w => w.localKey)).count 0 = 1 :=
  (save_task_writes_once cfgW collabOkW dataW netW none none 0 qsW
    ⟨fun _ _ _ _ => rfl, fun b bb => ⟨_, rfl⟩, fun _ _ => ⟨_, rfl⟩⟩
    (List.reverse_perm _)).2 0 (by decide)

/-! ## The per-item exception path -/

/-- C7 counterexample: a success item whose write raises.  The item's
processing raised an unexpected exception (it is logged), yet the
successes tally is 1 and the Status Counter received a success increment,
contradicting the claim that no tally is incremented for such an item no
matter where the exception is raised. -/
theorem save_task_exception_claim_cex :
    (save_task_loop cfgW collabWriteFailW dataOneW.enum (initState Unit)
      [⟨0, some [7], none⟩]).exceptions = [(0, "disk full".data)]
    ∧ (save_task_loop cfgW collabWriteFailW dataOneW.enum (initState Unit)
      [⟨0, some [7], none⟩]).successes = 1
    ∧ (save_task_loop cfgW collabWriteFailW dataOneW.enum (initState Unit)
      [⟨0, some [7], none⟩]).status_incs = ["success".data] := by
  decide

/-- C7 (amended: the exception is caught and logged with the offending key
and the loop proceeds to the next item; tallies and the Status Counter are
untouched when the exception is raised before the item's tally increment,
e.g. in the row lookup or the resizer, but increments already made before
the raise point persist, e.g. a writer raise on the download-failure path
leaves failed_to_download and the Status Counter incremented). -/
theorem save_task_exception_spec {σ : Type} (cfg : ShardConfig σ) (c : Collab σ)
    (rows : List (Nat × σ)) (st : SaveState σ) (item : QItem) (rest : List QItem) :
    (save_task_loop cfg c rows st (item :: rest)
      = save_task_loop cfg c rows (process_item cfg c rows st item) rest)
    ∧ (rows[item.key]? = none →
        (process_item cfg c rows st item).successes = st.successes
        ∧ (process_item cfg c rows st item).failed_to_download = st.failed_to_download
        ∧ (process_item cfg c rows st item).failed_to_resize = st.failed_to_resize
        ∧ (process_item cfg c rows st item).status_incs = st.status_incs
        ∧ (process_item cfg c rows st item).writes = st.writes
        ∧ (process_item cfg c rows st item).exceptions
            = st.exceptions ++ [(item.key, indexErrMsg)])
    ∧ (∀ k0 sd b e, rows[item.key]? = some (k0, sd) → item.err = none →
        item.img = some b → c.resizer b (cfg.bbox_of sd) = Except.error e →
        (process_item cfg c rows st item).successes = st.successes
        ∧ (process_item cfg c rows st item).failed_to_download = st.failed_to_download
        ∧ (process_item cfg c rows st item).failed_to_resize = st.failed_to_resize
        ∧ (process_item cfg c rows st item).status_incs = st.status_incs
        ∧ (process_item cfg c rows st item).writes = st.writes
        ∧ (process_item cfg c rows st item).exceptions
            = st.exceptions ++ [(item.key, e)])
    ∧ (∀ k0 sd m e, rows[item.key]? = some (k0, sd) → item.err = some m →
        (∀ i k cap mm, c.write i k cap mm = Except.error e) →
        (process_item cfg c rows st item).successes = st.successes
        ∧ (process_item cfg c rows st item).failed_to_download
            = st.failed_to_download + 1
        ∧ (process_item cfg c rows st item).failed_to_resize = st.failed_to_resize
        ∧ (process_item cfg c rows st item).status_incs = st.status_incs ++ [m]
        ∧ (process_item cfg c rows st item).exceptions
            = st.exceptions ++ [(item.key, e)]) := by
  refine ⟨rfl, ?_, ?_, ?_⟩
  · intro hg
    simp [process_item, hg]
  · intro k0 sd b e hg herr himg hres
    simp [process_item, hg, herr, himg, hres]
  · intro k0 sd m e hg herr hw
    simp [process_item, hg, herr, hw]

/-- C7 witness: a resizer raise on a success-shaped item leaves every tally
and the write log untouched and logs the exception under the item's key. -/
theorem save_task_exception_spec_witness :
    (process_item cfgW collabResizeRaiseW dataOneW.enum (initState Unit)
      ⟨0, some [7], none⟩).successes = 0
    ∧ (process_item cfgW collabResizeRaiseW dataOneW.enum (initState Unit)
      ⟨0, some [7], none⟩).failed_to_download = 0
    ∧ (process_item cfgW collabResizeRaiseW dataOneW.enum (initState Unit)
      ⟨0, some [7], none⟩).failed_to_resize = 0
    ∧ (process_item cfgW collabResizeRaiseW dataOneW.enum (initState Unit)
      ⟨0, some [7], none⟩).status_incs = []
    ∧ (process_item cfgW collabResizeRaiseW dataOneW.enum (initState Unit)
      ⟨0, some [7], none⟩).writes = []
    ∧ (process_item cfgW collabResizeRaiseW dataOneW.enum (initState Unit)
      ⟨0, some [7], none⟩).exceptions = [(0, "resizer crashed".data)] :=
  (save_task_exception_spec cfgW collabResizeRaiseW dataOneW.enum
    (initState Unit) ⟨0, some [7], none⟩ []).2.2.1
    0 () [7] "resizer crashed".data rfl rfl rfl rfl

/-! ## The completion handshake -/

/-- C2: evaluation of the code at the failing input (a one-row shard).
Two items are put on the queue (the row's outcome and the sentinel), but
when the consumer loop terminates it has issued only one task_done: the
sentinel is dequeued and the loop breaks before the try/finally, so the
sentinel is never acknowledged and the producer's queue join can never
complete; cleanup nevertheless proceeds to completion, gated only on the
consumer loop's termination. -/
theorem sentinel_never_acknowledged :
    producer_put_count dataOneW.enum.length = 2
    ∧ (save_task_loop cfgW collabOkW dataOneW.enum (initState Unit)
        qsOneW).task_done_count = 1
    ∧ (download_shard cfgW collabOkW rcOneW qsOneW).1
        = [ShardEvent.consumerDone, ShardEvent.writerClosed,
           ShardEvent.statsEmitted, ShardEvent.sourceRemoved] := by
  decide

/-! ## The shard failure boundary and cleanup ordering -/

/-- C8 -- AsyncDownloader.__call__ never propagates an exception raised
inside download_shard: it returns (False, row) exactly when download_shard
raised and (True, row) exactly when it completed, always carrying the
input row. -/
theorem downloader_call_isolates {σ : Type} (cfg : ShardConfig σ) (c : Collab σ)
    (rc : RunnerCollab σ) (qs : List QItem) (row : Nat × PyStr) :
    (downloader_call cfg c rc qs row).2 = row
    ∧ ((downloader_call cfg c rc qs row).1 = true ↔
        ∃ st, (download_shard cfg c rc qs).2 = Except.ok st)
    ∧ (∀ e, (download_shard cfg c rc qs).2 = Except.error e →
        downloader_call cfg c rc qs row = (false, row)) := by
  rcases h : (download_shard cfg c rc qs).2 with e | st
  · refine ⟨?_, ?_, ?_⟩ <;> simp [downloader_call, h]
  · refine ⟨?_, ?_, ?_⟩ <;> simp [downloader_call, h]

/-- C8 witness: a shard whose writer close raises is reported as
(False, row) rather than propagating. -/
theorem downloader_call_isolates_witness :
    downloader_call cfgW collabOkW rcCloseFailW qsW (0, "shard".data)
      = (false, (0, "shard".data)) :=
  (downloader_call_isolates cfgW collabOkW rcCloseFailW qsW
    (0, "shard".data)).2.2 "close failed".data rfl

/-- C9 -- the shard source is removed only after the consumer loop has
terminated, the writer's close has completed successfully and the stats
have been emitted (the only trace containing sourceRemoved is the full
ordered trace, and it requires close and stats to have succeeded); if
close raises, neither removal nor a completed close appears. -/
theorem shard_removed_only_after_close {σ : Type} (cfg : ShardConfig σ)
    (c : Collab σ) (rc : RunnerCollab σ) (qs : List QItem) :
    (ShardEvent.sourceRemoved ∈ (download_shard cfg c rc qs).1 →
      (download_shard cfg c rc qs).1
        = [ShardEvent.consumerDone, ShardEvent.writerClosed,
           ShardEvent.statsEmitted, ShardEvent.sourceRemoved]
      ∧ rc.close_result = Except.ok () ∧ rc.stats_result = Except.ok ())
    ∧ (∀ e, rc.close_result = Except.error e →
        ShardEvent.sourceRemoved ∉ (download_shard cfg c rc qs).1
        ∧ ShardEvent.writerClosed ∉ (download_shard cfg c rc qs).1) := by
  rcases rc with ⟨l, cr, sr, rr⟩
  rcases l with el | data <;> rcases cr with ec | ⟨⟩ <;>
    rcases sr with es | ⟨⟩ <;> rcases rr with er | ⟨⟩ <;>
    simp [download_shard]

/-- C9 witness: with a close that raises, the source is not removed and no
completed close is observed. -/
theorem shard_removed_only_after_close_witness :
    ShardEvent.sourceRemoved ∉ (download_shard cfgW collabOkW rcCloseFailW qsW).1
    ∧ ShardEvent.writerClosed ∉ (download_shard cfgW collabOkW rcCloseFailW qsW).1 :=
  (shard_removed_only_after_close cfgW collabOkW rcCloseFailW qsW).2
    "close failed".data rfl

end Img2Dataset
